import Mathlib

/-!
Verification of the metadata canonicalization and relationship inference
scripts of the Fanduel-project-1 repository.

Strings are modelled as `List Char`, and the Python string operations the
scripts use (`lower`, `strip`, `replace`, `in`, `split`, the two `re.sub`
patterns) are given explicit executable definitions below.  The three source
files are embedded in three namespaces:

* `DataDict`    — src/data_dictionaries_schema.py
* `TestSchema`  — src/TestSchema.py
* `PromptGen`   — src/run_prompt_generation.py
-/

/-! ### Python string primitives over `List Char` -/

/-- Python `s.lower()` (ASCII case mapping, which is all the scripts exercise). -/
def pyLower (s : List Char) : List Char := s.map Char.toLower

/-- Python `pat in s`: `pat` occurs as a contiguous substring of `s`. -/
def pyContains : List Char → List Char → Bool
  | [], pat => pat.isEmpty
  | c :: rest, pat => pat.isPrefixOf (c :: rest) || pyContains rest pat

/-- Python `s.replace(old, new)` for non-empty `old`: replace every
non-overlapping occurrence, scanning left to right.  (The scripts only ever
call `replace` with a non-empty `old`; for empty `old` this definition
replaces nothing.) -/
def pyReplaceFuel : Nat → List Char → List Char → List Char → List Char
  | 0, s, _, _ => s
  | _ + 1, [], _, _ => []
  | fuel + 1, c :: rest, old, new =>
    if old ≠ [] ∧ old.isPrefixOf (c :: rest) = true then
      new ++ pyReplaceFuel fuel ((c :: rest).drop old.length) old new
    else
      c :: pyReplaceFuel fuel rest old new

/-- Entry point for `pyReplaceFuel`: every recursive step shortens the
scanned list, so a fuel of its length is never exhausted. -/
def pyReplace (s old new : List Char) : List Char :=
  pyReplaceFuel s.length s old new

/-- Python `re.sub(r'_v\d+', '', s)`: delete every (greedy, non-overlapping,
left-to-right) occurrence of an underscore, a `v` and one or more digits. -/
def subVersionFuel : Nat → List Char → List Char
  | 0, s => s
  | _ + 1, [] => []
  | fuel + 1, '_' :: 'v' :: c :: rest =>
    if c.isDigit then subVersionFuel fuel (rest.dropWhile Char.isDigit)
    else '_' :: subVersionFuel fuel ('v' :: c :: rest)
  | fuel + 1, c :: rest => c :: subVersionFuel fuel rest

/-- Entry point for `subVersionFuel`: every recursive step shortens the
scanned list, so a fuel of its length is never exhausted. -/
def subVersion (s : List Char) : List Char :=
  subVersionFuel s.length s

/-- Python `re.sub(r'__+', '_', s)`: collapse every run of two or more
underscores into a single underscore. -/
def collapseUnderscoresFuel : Nat → List Char → List Char
  | 0, s => s
  | _ + 1, [] => []
  | fuel + 1, '_' :: '_' :: rest =>
    '_' :: collapseUnderscoresFuel fuel (rest.dropWhile (fun c => c == '_'))
  | fuel + 1, c :: rest => c :: collapseUnderscoresFuel fuel rest

/-- Entry point for `collapseUnderscoresFuel`. -/
def collapseUnderscores (s : List Char) : List Char :=
  collapseUnderscoresFuel s.length s

/-- Python `re.sub('(.)([A-Z][a-z]+)', r'\1_\2', s)`: insert an underscore
between any character and a following capitalised run. -/
def camelSubAFuel : Nat → List Char → List Char
  | 0, s => s
  | fuel + 1, a :: b :: c :: rest =>
    if a ≠ '\n' ∧ b.isUpper = true ∧ c.isLower = true then
      a :: '_' :: b :: ((c :: rest).takeWhile Char.isLower ++
        camelSubAFuel fuel ((c :: rest).dropWhile Char.isLower))
    else
      a :: camelSubAFuel fuel (b :: c :: rest)
  | _ + 1, l => l

/-- Entry point for `camelSubAFuel`. -/
def camelSubA (s : List Char) : List Char :=
  camelSubAFuel s.length s

/-- Python `re.sub('([a-z0-9])([A-Z])', r'\1_\2', s)`: insert an underscore
between a lower-case letter or digit and a following capital. -/
def camelSubBFuel : Nat → List Char → List Char
  | 0, s => s
  | fuel + 1, a :: b :: rest =>
    if (a.isLower || a.isDigit) && b.isUpper then
      a :: '_' :: b :: camelSubBFuel fuel rest
    else
      a :: camelSubBFuel fuel (b :: rest)
  | _ + 1, l => l

/-- Entry point for `camelSubBFuel`. -/
def camelSubB (s : List Char) : List Char :=
  camelSubBFuel s.length s

/-- Python `s.strip()` (ASCII whitespace). -/
def pyStrip (s : List Char) : List Char :=
  ((s.dropWhile Char.isWhitespace).reverse.dropWhile Char.isWhitespace).reverse

/-- Python `s.split('.')`. -/
def splitOnDot : List Char → List (List Char)
  | [] => [[]]
  | c :: rest =>
    if c = '.' then [] :: splitOnDot rest
    else
      match splitOnDot rest with
      | [] => [[c]]
      | seg :: segs => (c :: seg) :: segs

/-- Python `s.split('.')[-1]`: the suffix after the last dot. -/
def afterLastDot (s : List Char) : List Char :=
  (s.reverse.takeWhile (fun c => c != '.')).reverse

/-- Python `s.replace('.', '_')`. -/
def dotsToUnderscores (s : List Char) : List Char :=
  s.map (fun c => if c = '.' then '_' else c)

/-! ### src/data_dictionaries_schema.py -/

namespace DataDict

/-- `ColumnSchema` dataclass (lines 12-19). -/
structure ColumnSchema where
  name : List Char
  data_type : List Char
  canonical_id : List Char
  is_primary_key : Bool := false
  is_foreign_key : Bool := false
  description : List Char := []
deriving DecidableEq, Repr

/-- `TableSchema` dataclass (lines 21-29). -/
structure TableSchema where
  table_name : List Char
  physical_name : List Char
  table_type : List Char
  domain : List Char
  columns : List ColumnSchema
  canonical_id : List Char
  description : List Char := []
deriving DecidableEq, Repr

/-- `RelationshipSchema` dataclass (lines 31-38). -/
structure RelationshipSchema where
  source_table : List Char
  source_column : List Char
  target_table : List Char
  target_column : List Char
  relationship_type : List Char
  description : List Char := []
deriving DecidableEq, Repr

/-- `MetadataSchema` dataclass (lines 40-43). -/
structure MetadataSchema where
  tables : List TableSchema
  relationships : List RelationshipSchema
deriving DecidableEq, Repr

/-- `TARGET_TABLES` (lines 49-53). -/
def TARGET_TABLES : List (List Char) :=
  ["deposits".toList, "deposits_enriched".toList,
   "ledger_account_balances_v1".toList, "ledger_lines_enriched".toList,
   "verification_attempt".toList, "verified_user_details".toList,
   "withdrawals".toList, "worldpay_transactions".toList]

/-- Line 65: `target.replace('_v1', '').replace('_enriched', '')`. -/
def cleanTarget (target : List Char) : List Char :=
  pyReplace (pyReplace target "_v1".toList []) "_enriched".toList []

/-- Lines 57-59 of `normalize_table_name`: lower-case, drop `"` characters,
and when a dot is present keep only the last dot-separated segment. -/
def prepName (phys_name : List Char) : List Char :=
  let name := (pyLower phys_name).filter (fun c => c != '"')
  if '.' ∈ name then afterLastDot name else name

/-- `normalize_table_name` (lines 55-67). -/
def normalize_table_name (phys_name : List Char) : List Char :=
  match TARGET_TABLES.find? (fun target => pyContains (prepName phys_name) target) with
  | some target => cleanTarget target
  | none => dotsToUnderscores (prepName phys_name)

/-- `normalize_column_name` (lines 69-70): `column_name.strip().lower()`. -/
def normalize_column_name (column_name : List Char) : List Char :=
  pyLower (pyStrip column_name)

/-- `normalize_data_type` (lines 72-74). -/
def normalize_data_type (data_type : List Char) : List Char :=
  let k := pyLower data_type
  if k = "bigint".toList then "integer".toList
  else if k = "int".toList then "integer".toList
  else if k = "varchar".toList then "string".toList
  else if k = "decimal".toList then "decimal".toList
  else "string".toList

/-- `discover_relationships` (lines 80-106), the returned list.  The source
also computes `master_table_ids` (line 83), which is never read afterwards,
and flips `is_foreign_key` on matching source columns; the flag mutation is
modelled by `discover_mark` below and does not influence the matching, which
only reads column names and canonical ids. -/
def discover_relationships (tables : List TableSchema) : List RelationshipSchema :=
  tables.flatMap (fun source_table =>
    source_table.columns.flatMap (fun col =>
      tables.flatMap (fun target_table =>
        if source_table.canonical_id = target_table.canonical_id then []
        else
          target_table.columns.filterMap (fun target_col =>
            if col.name = target_col.name ∧ pyContains col.name "id".toList = true then
              some { source_table := source_table.canonical_id
                     source_column := col.canonical_id
                     target_table := target_table.canonical_id
                     target_column := target_col.canonical_id
                     relationship_type := "linked_by_id".toList
                     description := "Auto-detected link via ".toList ++ col.name }
            else none))))

/-- The condition under which line 96 (`col.is_foreign_key = True`) fires at
least once for a column `col` of `source_table` during the scan: some other
table (by canonical id) has a column of the same name, and the name contains
`"id"`. -/
def fkMatch (tables : List TableSchema) (source_table : TableSchema)
    (col : ColumnSchema) : Bool :=
  (tables.any (fun target_table =>
    !(source_table.canonical_id == target_table.canonical_id) &&
      target_table.columns.any (fun target_col => col.name == target_col.name))) &&
  pyContains col.name "id".toList

/-- The in-place `is_foreign_key` mutation of `discover_relationships`
(line 96), rendered as a pure function: the final state of the table list
after the scan.  Matching reads only column names and canonical ids, never
the flag, so the final state does not depend on the iteration order. -/
def discover_mark (tables : List TableSchema) : List TableSchema :=
  tables.map (fun source_table =>
    { source_table with
      columns := source_table.columns.map (fun col =>
        if fkMatch tables source_table col then
          { col with is_foreign_key := true }
        else col) })

/-- One row of a data-dictionary CSV as `process_csv_files` reads it
(`key`, `al_datadict_item_properties`, `al_datadict_item_column_data_type`,
`description`; a missing description cell is `none`). -/
structure CsvRow where
  key : List Char
  al_datadict_item_properties : List Char
  al_datadict_item_column_data_type : List Char
  description : Option (List Char)
deriving DecidableEq, Repr

/-- The per-table accumulator value of `all_tables` (line 127):
`{"phys": ..., "cols": [...], "desc": ...}`. -/
structure TableAcc where
  phys : List Char
  cols : List ColumnSchema
  desc : List Char
deriving DecidableEq, Repr

/-- Lines 134-143: build a `ColumnSchema` for a column row.  The primary-key
flag is `("id" in col_name and norm_table in col_name)` (line 141). -/
def buildColumn (norm_table col_raw : List Char) (row : CsvRow) : ColumnSchema :=
  let col_name := normalize_column_name col_raw
  { name := col_name
    data_type := normalize_data_type row.al_datadict_item_column_data_type
    canonical_id := norm_table ++ '.' :: col_name
    is_primary_key := pyContains col_name "id".toList && pyContains col_name norm_table
    is_foreign_key := false
    description := match row.description with | some d => d | none => [] }

/-- Line 131: overwrite the stored table description. -/
def setDesc (acc : List (List Char × TableAcc)) (k d : List Char) :
    List (List Char × TableAcc) :=
  acc.map (fun p => if p.1 = k then (p.1, { p.2 with desc := d }) else p)

/-- Line 137: append a column to the stored table. -/
def addCol (acc : List (List Char × TableAcc)) (k : List Char) (c : ColumnSchema) :
    List (List Char × TableAcc) :=
  acc.map (fun p => if p.1 = k then (p.1, { p.2 with cols := p.2.cols ++ [c] }) else p)

/-- Lines 118-143: process one CSV row into the `all_tables` accumulator
(an insertion-ordered map, modelled as an association list). -/
def processRow (acc : List (List Char × TableAcc)) (row : CsvRow) :
    List (List Char × TableAcc) :=
  if row.key = [] ∨ '.' ∉ row.key then acc
  else
    let segs := splitOnDot row.key
    let phys_table := List.intercalate ['.'] segs.dropLast
    let norm_table := normalize_table_name phys_table
    let acc1 :=
      if (acc.lookup norm_table).isSome then acc
      else acc ++ [(norm_table, { phys := phys_table, cols := [], desc := [] })]
    if pyContains row.al_datadict_item_properties "otype=table".toList then
      setDesc acc1 norm_table (row.description.getD [])
    else
      addCol acc1 norm_table (buildColumn norm_table (segs.getLastD []) row)

/-- Line 151: `"ENRICHED" if "enriched" in data["phys"] else "RAW"`
(a case-sensitive check of the raw physical name). -/
def tableTypeOf (phys : List Char) : List Char :=
  if pyContains phys "enriched".toList then "ENRICHED".toList else "RAW".toList

/-- Line 152: `"Finance" if "financial" in data["phys"] else "Account"`. -/
def domainOf (phys : List Char) : List Char :=
  if pyContains phys "financial".toList then "Finance".toList else "Account".toList

/-- Lines 146-156: turn the accumulator into `TableSchema` objects. -/
def buildTables (acc : List (List Char × TableAcc)) : List TableSchema :=
  acc.map (fun p =>
    { table_name := p.1
      physical_name := p.2.phys
      table_type := tableTypeOf p.2.phys
      domain := domainOf p.2.phys
      columns := p.2.cols
      canonical_id := p.1
      description := p.2.desc })

/-- `process_csv_files` (lines 112-161) over the concatenated rows of the
globbed CSV files.  The serialized graph holds the table objects after the
in-place foreign-key marking of `discover_relationships` (line 159) together
with the relationship list it returned. -/
def process_csv_files (rows : List CsvRow) : MetadataSchema :=
  let table_objects := buildTables (rows.foldl processRow [])
  { tables := discover_mark table_objects
    relationships := discover_relationships table_objects }

end DataDict

/-! ### src/TestSchema.py -/

namespace TestSchema

/-- `ColumnSchema` dataclass (lines 6-10): this variant has no canonical id
and no key flags. -/
structure ColumnSchema where
  name : List Char
  data_type : List Char
  description : List Char := []
deriving DecidableEq, Repr

/-- `TableSchema` dataclass (lines 12-19). -/
structure TableSchema where
  table_name : List Char
  physical_name : List Char
  table_type : List Char
  domain : List Char
  columns : List ColumnSchema
  description : List Char := []
deriving DecidableEq, Repr

/-- `RelationshipSchema` dataclass (lines 21-28). -/
structure RelationshipSchema where
  source_table : List Char
  source_column : List Char
  target_table : List Char
  target_column : List Char
  relationship_type : List Char
  description : List Char := []
deriving DecidableEq, Repr

/-- `MetadataSchema` dataclass (lines 30-33). -/
structure MetadataSchema where
  tables : List TableSchema
  relationships : List RelationshipSchema
deriving DecidableEq, Repr

/-- `get_table_type` (lines 142-146). -/
def get_table_type (table_name : List Char) : List Char :=
  if pyContains (pyLower table_name) "_enriched".toList then "ENRICHED".toList
  else "RAW".toList

/-- `normalize_table_name` (lines 148-154): lower-case, delete `_v<digits>`
occurrences, delete `_enriched` occurrences, turn dots into underscores. -/
def normalize_table_name (table_name : List Char) : List Char :=
  dotsToUnderscores (pyReplace (subVersion (pyLower table_name)) "_enriched".toList [])

/-- `normalize_column_name` (lines 156-162). -/
def normalize_column_name (column_name : List Char) : List Char :=
  collapseUnderscores (pyLower (camelSubB (camelSubA (pyStrip column_name))))

/-- `normalize_data_type` (lines 164-173). -/
def normalize_data_type (data_type : List Char) : List Char :=
  let k := pyLower data_type
  if k = "bigint".toList then "integer".toList
  else if k = "int".toList then "integer".toList
  else if k = "varchar".toList then "string".toList
  else if k = "decimal".toList then "decimal".toList
  else if k = "timestamp".toList then "datetime".toList
  else if k = "date".toList then "date".toList
  else "string".toList

/-- `assign_domain` (lines 175-178). -/
def assign_domain (table_name : List Char) : List Char :=
  if pyContains (pyLower table_name) "financial".toList then "Finance".toList
  else if pyContains (pyLower table_name) "account".toList then "Account".toList
  else "General".toList

/-- `raw_metadata` (lines 35-136): the ten literal table definitions. -/
def raw_metadata : List (String × List (String × String)) := [
  ("foundation.financial.ledger_lines_enriched_v1",
    [("ledger_line_id", "bigint"), ("account_id", "varchar"),
     ("transaction_id", "varchar"), ("entry_date", "timestamp"),
     ("amount", "decimal")]),
  ("foundation.financial.deposits_v4",
    [("deposit_id", "bigint"), ("user_id", "varchar"), ("amount", "decimal"),
     ("method", "varchar"), ("deposit_date", "timestamp")]),
  ("foundation.financial.deposits_enriched_v1",
    [("deposit_id", "bigint"), ("user_id", "varchar"), ("amount", "decimal"),
     ("transaction_id", "varchar"), ("status", "varchar")]),
  ("foundation.financial.withdrawals_v4",
    [("withdrawal_id", "bigint"), ("user_id", "varchar"), ("amount", "decimal"),
     ("withdrawal_date", "timestamp"), ("method", "varchar")]),
  ("foundation.financial.withdrawals_enriched_v4",
    [("withdrawal_id", "bigint"), ("user_id", "varchar"), ("amount", "decimal"),
     ("status", "varchar"), ("transaction_id", "varchar")]),
  ("foundation.financial.ledger_account_balances_v1",
    [("account_id", "varchar"), ("user_id", "varchar"), ("balance", "decimal"),
     ("as_of_date", "date"), ("currency", "varchar")]),
  ("foundation.financial.worldpay_transactions",
    [("transaction_id", "varchar"), ("transaction_type", "varchar"),
     ("amount", "decimal"), ("status", "varchar"), ("user_id", "varchar")]),
  ("foundation.account.authgateway_session_created_events",
    [("session_id", "varchar"), ("user_id", "varchar"), ("success", "varchar"),
     ("device_type", "varchar"), ("created_at", "timestamp")]),
  ("foundation.account.verification_attempt_v1",
    [("attempt_id", "varchar"), ("user_id", "varchar"),
     ("verification_type", "varchar"), ("result", "varchar"),
     ("attempted_at", "timestamp")]),
  ("foundation.account.verified_user_details",
    [("user_id", "varchar"), ("verification_level", "varchar"),
     ("verified_date", "timestamp"), ("country", "varchar"),
     ("active", "varchar")])]

/-- Lines 186-208: build one `TableSchema` from a `raw_metadata` entry. -/
def mkTable (entry : String × List (String × String)) : TableSchema :=
  let phys_name := entry.1.toList
  let norm_name := normalize_table_name phys_name
  let t_type := get_table_type phys_name
  { table_name := norm_name
    physical_name := phys_name
    table_type := t_type
    domain := assign_domain phys_name
    columns := entry.2.map (fun c =>
      { name := normalize_column_name c.1.toList
        data_type := normalize_data_type c.2.toList
        description := [] })
    description := "This is the ".toList ++ t_type ++ " version of the ".toList ++
      norm_name ++ " concept.".toList }

/-- `table_objects` (lines 184-208). -/
def table_objects : List TableSchema := raw_metadata.map mkTable

/-- `relationships` (lines 214-263): the curated fixed relationship list. -/
def relationships : List RelationshipSchema := [
  { source_table := "foundation_financial_deposits".toList
    source_column := "account_id".toList
    target_table := "foundation_account_verified_user_details".toList
    target_column := "user_id".toList
    relationship_type := "belongs_to".toList
    description := "Deposits are made into accounts owned by verified users.".toList },
  { source_table := "foundation_financial_withdrawals".toList
    source_column := "account_id".toList
    target_table := "foundation_account_verified_user_details".toList
    target_column := "user_id".toList
    relationship_type := "belongs_to".toList
    description := "Withdrawals are performed by users associated with accounts.".toList },
  { source_table := "foundation_financial_ledger_account_balances".toList
    source_column := "account_id".toList
    target_table := "foundation_account_verified_user_details".toList
    target_column := "user_id".toList
    relationship_type := "account_owner".toList
    description := "Ledger account balances correspond to verified users.".toList },
  { source_table := "foundation_account_authgateway_session_created_events".toList
    source_column := "user_id".toList
    target_table := "foundation_account_verified_user_details".toList
    target_column := "user_id".toList
    relationship_type := "session_of".toList
    description := "Authentication sessions belong to verified users.".toList },
  { source_table := "foundation_account_verification_attempt".toList
    source_column := "user_id".toList
    target_table := "foundation_account_verified_user_details".toList
    target_column := "user_id".toList
    relationship_type := "verification_event".toList
    description := "Verification attempts relate to user identity validation.".toList },
  { source_table := "foundation_financial_worldpay_transactions".toList
    source_column := "account_id".toList
    target_table := "foundation_account_verified_user_details".toList
    target_column := "user_id".toList
    relationship_type := "payment_transaction".toList
    description := "Worldpay transactions originate from user-linked accounts.".toList }]

/-- `metadata_model` (lines 269-272). -/
def metadata_model : MetadataSchema :=
  { tables := table_objects, relationships := relationships }

/-- A relationship endpoint `(table, column)` resolves in a graph when some
table carries that name and, for the column, owns a column of that name
(this file's schema identifies tables by `table_name` and columns by `name`;
it has no separate canonical-id field). -/
def endpointResolves (g : MetadataSchema) (tbl col : List Char) : Bool :=
  g.tables.any (fun t => t.table_name == tbl &&
    t.columns.any (fun c => c.name == col))

end TestSchema

/-! ### src/run_prompt_generation.py -/

namespace PromptGen

/-- The JSON-ish values a decoded model response can hold at the three keys:
a string, a list, or Python `None`. -/
inductive PyVal where
  | str : List Char → PyVal
  | list : List PyVal → PyVal
  | none : PyVal

mutual
/-- Python `repr` of a `PyVal` (quote-escaping inside strings is not
reproduced; only emptiness after `strip()` is ever observed, and a `repr` of
a list or of `None` is never blank in either rendering). -/
def pyReprVal : PyVal → List Char
  | PyVal.str s => '\'' :: (s ++ ['\''])
  | PyVal.none => "None".toList
  | PyVal.list l => '[' :: (pyReprInner l ++ [']'])

/-- Comma-separated `repr`s of the elements of a list value. -/
def pyReprInner : List PyVal → List Char
  | [] => []
  | [v] => pyReprVal v
  | v :: rest => pyReprVal v ++ ", ".toList ++ pyReprInner rest
end

/-- Python `str(v)`: a string renders as itself, anything else as its `repr`. -/
def pyStrVal : PyVal → List Char
  | PyVal.str s => s
  | v => pyReprVal v

/-- The normalized record `normalize_model_output` returns. -/
structure NormalizedOutput where
  governance_doc_markdown : PyVal
  delta_ontology_ttl : PyVal
  new_terms : PyVal

/-- Lines 96-101: the first alias of a required key present in the raw
response wins. -/
def firstAlias (output : List (List Char × PyVal)) : List (List Char) → Option PyVal
  | [] => Option.none
  | a :: rest =>
    match output.lookup a with
    | Option.some v => Option.some v
    | Option.none => firstAlias output rest

/-- Line 91: aliases of `governance_doc_markdown`. -/
def govAliases : List (List Char) :=
  ["governance_doc_markdown".toList, "governance_markdown".toList,
   "governanceDocMarkdown".toList]

/-- Line 92: aliases of `delta_ontology_ttl`. -/
def deltaAliases : List (List Char) :=
  ["delta_ontology_ttl".toList, "delta_ontology".toList, "deltaOntologyTtl".toList,
   "delta_ttl".toList, "deltaOntologyTTL".toList]

/-- Line 93: aliases of `new_terms`. -/
def termAliases : List (List Char) :=
  ["new_terms".toList, "newTerms".toList, "added_terms".toList, "addedTerms".toList]

/-- `normalize_model_output` (lines 85-118).  The raw response is an
association list (a decoded JSON object); `Except.error` models the
`RuntimeError` raised when no governance-document alias is found or its
value is blank. -/
def normalize_model_output (output : List (List Char × PyVal)) (table_name : List Char) :
    Except (List Char) NormalizedOutput :=
  let gov? := firstAlias output govAliases
  let delta? := firstAlias output deltaAliases
  let terms? := firstAlias output termAliases
  let terms : PyVal :=
    match terms? with
    | Option.none => PyVal.list []
    | Option.some PyVal.none => PyVal.list []
    | Option.some v => v
  let delta : PyVal :=
    match delta? with
    | Option.none => PyVal.str "# No delta required".toList
    | Option.some v =>
      if pyStrip (pyStrVal v) = [] then PyVal.str "# No delta required".toList else v
  match gov? with
  | Option.none =>
    Except.error ("Missing governance_doc_markdown in model output for table ".toList
      ++ table_name)
  | Option.some g =>
    if pyStrip (pyStrVal g) = [] then
      Except.error ("Missing governance_doc_markdown in model output for table ".toList
        ++ table_name)
    else
      Except.ok
        { governance_doc_markdown := g
          delta_ontology_ttl := delta
          new_terms := match terms with | PyVal.list _ => terms | t => PyVal.list [t] }

end PromptGen

/-! ### Concrete fixtures used by witnesses and counterexamples -/

/-- The `user_id` column of the `deposits` fixture table. -/
def wUserIdDeposits : DataDict.ColumnSchema :=
  { name := "user_id".toList
    data_type := "string".toList
    canonical_id := "deposits.user_id".toList }

/-- The `user_id` column of the `verified_user_details` fixture table. -/
def wUserIdVerified : DataDict.ColumnSchema :=
  { name := "user_id".toList
    data_type := "string".toList
    canonical_id := "verified_user_details.user_id".toList }

/-- The `deposits` fixture table. -/
def wDeposits : DataDict.TableSchema :=
  { table_name := "deposits".toList
    physical_name := "foundation.financial.deposits".toList
    table_type := "RAW".toList
    domain := "Finance".toList
    columns := [wUserIdDeposits]
    canonical_id := "deposits".toList }

/-- The `verified_user_details` fixture table. -/
def wVerified : DataDict.TableSchema :=
  { table_name := "verified_user_details".toList
    physical_name := "foundation.account.verified_user_details".toList
    table_type := "RAW".toList
    domain := "Account".toList
    columns := [wUserIdVerified]
    canonical_id := "verified_user_details".toList }

/-- The two-table fixture of the spec's relationship-completeness property. -/
def wTables : List DataDict.TableSchema := [wDeposits, wVerified]

/-- The `deposits -> verified_user_details` edge the engine produces on
`wTables`. -/
def wRelForward : DataDict.RelationshipSchema :=
  { source_table := "deposits".toList
    source_column := "deposits.user_id".toList
    target_table := "verified_user_details".toList
    target_column := "verified_user_details.user_id".toList
    relationship_type := "linked_by_id".toList
    description := "Auto-detected link via user_id".toList }

/-- A CSV row declaring column `deposit_id` of `foundation.financial.deposits`. -/
def rowDepositId : DataDict.CsvRow :=
  { key := "foundation.financial.deposits.deposit_id".toList
    al_datadict_item_properties := []
    al_datadict_item_column_data_type := "bigint".toList
    description := some "Unique identifier of the deposit".toList }

/-- A CSV row declaring column `user_id` of `foundation.financial.deposits`. -/
def rowUserId : DataDict.CsvRow :=
  { key := "foundation.financial.deposits.user_id".toList
    al_datadict_item_properties := []
    al_datadict_item_column_data_type := "varchar".toList
    description := none }

/-- A CSV row whose table path is `A_ENRICHED` (upper-case variant of the
enriched marker). -/
def rowUpperEnriched : DataDict.CsvRow :=
  { key := "A_ENRICHED.col1".toList
    al_datadict_item_properties := []
    al_datadict_item_column_data_type := "varchar".toList
    description := none }

/-- A CSV row whose table path `xyz` contains no domain keyword. -/
def rowNoKeyword : DataDict.CsvRow :=
  { key := "xyz.some_id".toList
    al_datadict_item_properties := []
    al_datadict_item_column_data_type := "varchar".toList
    description := none }

/-- The immutable fields of a column — every field except the
`is_foreign_key` flag the inference engine may flip. -/
def DataDict.columnFields (c : DataDict.ColumnSchema) :
    List Char × List Char × List Char × Bool × List Char :=
  (c.name, c.data_type, c.canonical_id, c.is_primary_key, c.description)

/-- The scalar fields of a table — every field except its column sequence. -/
def DataDict.tableFields (t : DataDict.TableSchema) :
    List Char × List Char × List Char × List Char × List Char × List Char :=
  (t.table_name, t.physical_name, t.table_type, t.domain, t.canonical_id,
   t.description)

/-! ### Helper lemmas -/

/-- ASCII lower-casing is idempotent. -/
theorem char_toLower_idem (c : Char) : c.toLower.toLower = c.toLower := by
  have key : ∀ d : Char, ¬(d.toNat ≥ 65 ∧ d.toNat ≤ 90) → d.toLower = d := by
    intro d hd
    unfold Char.toLower
    rw [if_neg hd]
  by_cases h : c.toNat ≥ 65 ∧ c.toNat ≤ 90
  · have h1 : c.toLower = Char.ofNat (c.toNat + 32) := by
      unfold Char.toLower
      rw [if_pos h]
    have hval : (c.toNat + 32).isValidChar := Or.inl (by omega)
    have hv : (Char.ofNat (c.toNat + 32)).toNat = c.toNat + 32 := by
      unfold Char.ofNat
      rw [dif_pos hval]
      rfl
    apply key
    rw [h1, hv]
    omega
  · rw [key c h, key c h]

/-- A map whose function fixes every element of the list is the identity. -/
theorem map_eq_self_of_mem {α : Type} {f : α → α} {l : List α}
    (h : ∀ a ∈ l, f a = a) : l.map f = l := by
  rw [List.map_congr_left (g := id) h, List.map_id]

/-- String-literal inequalities used to discriminate classifier outputs. -/
theorem classifier_outputs_distinct :
    "ENRICHED".toList ≠ "RAW".toList ∧ "Finance".toList ≠ "Account".toList ∧
    "Finance".toList ≠ "General".toList ∧ "Account".toList ≠ "General".toList := by
  decide

/-! ### C6 — suffix unification -/

/-- C6: both implementations of `normalize_table_name` collapse
`foundation.financial.deposits_v4` and
`foundation.financial.deposits_enriched_v1` — physical names differing only
by version/enriched suffix — to one canonical name
(`foundation_financial_deposits` in TestSchema.py, `deposits` in
data_dictionaries_schema.py). -/
theorem normalize_table_name_unifies_versions :
    TestSchema.normalize_table_name "foundation.financial.deposits_v4".toList =
      TestSchema.normalize_table_name "foundation.financial.deposits_enriched_v1".toList ∧
    TestSchema.normalize_table_name "foundation.financial.deposits_v4".toList =
      "foundation_financial_deposits".toList ∧
    DataDict.normalize_table_name "foundation.financial.deposits_v4".toList =
      DataDict.normalize_table_name "foundation.financial.deposits_enriched_v1".toList ∧
    DataDict.normalize_table_name "foundation.financial.deposits_v4".toList =
      "deposits".toList := by
  decide

/-! ### C5 — idempotence of normalize_table_name -/

/-- C5 counterexample: TestSchema.py's `normalize_table_name` is not
idempotent.  On `"a.v1"` the dot becomes an underscore, creating the suffix
`_v1` which only the second application deletes: the first application gives
`"a_v1"`, the second `"a"`. -/
theorem testschema_normalize_not_idempotent :
    TestSchema.normalize_table_name "a.v1".toList = "a_v1".toList ∧
    TestSchema.normalize_table_name "a_v1".toList = "a".toList ∧
    TestSchema.normalize_table_name
        (TestSchema.normalize_table_name "a.v1".toList) ≠
      TestSchema.normalize_table_name "a.v1".toList := by
  decide

/-! ### C2 — primary-key heuristic -/

/-- C2 counterexample: processing rows that declare columns `deposit_id` and
`user_id` of table `deposits`, the builder flags neither as a primary key —
in particular `deposit_id` is NOT flagged, because `"deposits"` is not a
substring of `"deposit_id"` even though `"id"` is. -/
theorem deposit_id_not_flagged_primary :
    (DataDict.process_csv_files [rowDepositId, rowUserId]).tables.map
        (fun t => (t.table_name, t.columns.map (fun c => (c.name, c.is_primary_key)))) =
      [("deposits".toList,
        [("deposit_id".toList, false), ("user_id".toList, false)])] ∧
    pyContains "deposit_id".toList "id".toList = true ∧
    pyContains "deposit_id".toList "deposits".toList = false := by
  decide

/-- C2 (amended): a column built by the graph builder is flagged
`is_primary_key` exactly when its canonical name contains `"id"` and also
contains the owning table's canonical name as a substring; under that rule
neither `deposit_id` nor `user_id` on table `deposits` is flagged, since
`"deposits"` is a substring of neither name. -/
theorem primary_key_flag_iff :
    (∀ (norm_table col_raw : List Char) (row : DataDict.CsvRow),
      ((DataDict.buildColumn norm_table col_raw row).is_primary_key = true ↔
        (pyContains (DataDict.buildColumn norm_table col_raw row).name
            "id".toList = true ∧
         pyContains (DataDict.buildColumn norm_table col_raw row).name
            norm_table = true))) ∧
    (DataDict.buildColumn "deposits".toList "deposit_id".toList
        rowDepositId).is_primary_key = false ∧
    (DataDict.buildColumn "deposits".toList "user_id".toList
        rowUserId).is_primary_key = false := by
  refine ⟨?_, by decide, by decide⟩
  intro norm_table col_raw row
  simp [DataDict.buildColumn, Bool.and_eq_true]

/-! ### C3 — LLM-layer key aliasing -/

/-- C3 counterexample: on the raw response with keys `governanceMarkdown`
and `addedTerms`, `normalize_model_output` raises (is an error): the alias
list for the governance key holds `governance_doc_markdown`,
`governance_markdown` and `governanceDocMarkdown` but not
`governanceMarkdown`, so the hard-failure branch fires. -/
theorem normalize_model_output_governanceMarkdown_raises :
    PromptGen.normalize_model_output
        [("governanceMarkdown".toList, PromptGen.PyVal.str "X".toList),
         ("addedTerms".toList,
          PromptGen.PyVal.list [PromptGen.PyVal.str "a".toList])]
        "t".toList =
      Except.error
        "Missing governance_doc_markdown in model output for table t".toList := rfl

/-- C3 (amended): with a recognized governance alias
(`governance_markdown`; `governanceDocMarkdown` behaves the same) in place
of the unrecognized `governanceMarkdown`, the normalization of
`{alias: "X", addedTerms: ["a"]}` succeeds and yields
`governance_doc_markdown = "X"`, the sentinel `delta_ontology_ttl` and
`new_terms = ["a"]`, for every table name. -/
theorem normalize_model_output_recognized_alias (table_name : List Char) :
    PromptGen.normalize_model_output
        [("governance_markdown".toList, PromptGen.PyVal.str "X".toList),
         ("addedTerms".toList,
          PromptGen.PyVal.list [PromptGen.PyVal.str "a".toList])]
        table_name =
      Except.ok
        { governance_doc_markdown := PromptGen.PyVal.str "X".toList
          delta_ontology_ttl := PromptGen.PyVal.str "# No delta required".toList
          new_terms := PromptGen.PyVal.list [PromptGen.PyVal.str "a".toList] } := rfl

/-! ### C8 — table-type classification -/

/-- C8 counterexample: the CSV graph builder classifies the physical name
`A_ENRICHED` as `RAW`, although `enriched` is a case-insensitive substring
of it — its check (`"enriched" in data["phys"]`) is case-sensitive. -/
theorem upper_enriched_classified_raw :
    (DataDict.process_csv_files [rowUpperEnriched]).tables.map
        (fun t => (t.physical_name, t.table_type)) =
      [("A_ENRICHED".toList, "RAW".toList)] ∧
    pyContains (pyLower "A_ENRICHED".toList) "enriched".toList = true := by
  decide

/-- C8 (amended): `TestSchema.get_table_type` returns `ENRICHED` exactly
when the lower-cased name contains `_enriched` (with the leading
underscore), and `RAW` otherwise; the CSV graph builder marks `ENRICHED`
exactly when the raw physical name contains the case-sensitive substring
`enriched`, and `RAW` otherwise. -/
theorem table_type_characterization :
    (∀ name : List Char,
      (TestSchema.get_table_type name = "ENRICHED".toList ∨
        TestSchema.get_table_type name = "RAW".toList) ∧
      (TestSchema.get_table_type name = "ENRICHED".toList ↔
        pyContains (pyLower name) "_enriched".toList = true)) ∧
    (∀ phys : List Char,
      (DataDict.tableTypeOf phys = "ENRICHED".toList ∨
        DataDict.tableTypeOf phys = "RAW".toList) ∧
      (DataDict.tableTypeOf phys = "ENRICHED".toList ↔
        pyContains phys "enriched".toList = true)) := by
  have hne : "RAW".toList ≠ "ENRICHED".toList := by decide
  constructor
  · intro name
    by_cases h : pyContains (pyLower name) "_enriched".toList = true
    · unfold TestSchema.get_table_type
      rw [if_pos h]
      exact ⟨Or.inl rfl, ⟨fun _ => h, fun _ => rfl⟩⟩
    · unfold TestSchema.get_table_type
      rw [if_neg h]
      exact ⟨Or.inr rfl, ⟨fun he => absurd he hne, fun hc => absurd hc h⟩⟩
  · intro phys
    by_cases h : pyContains phys "enriched".toList = true
    · unfold DataDict.tableTypeOf
      rw [if_pos h]
      exact ⟨Or.inl rfl, ⟨fun _ => h, fun _ => rfl⟩⟩
    · unfold DataDict.tableTypeOf
      rw [if_neg h]
      exact ⟨Or.inr rfl, ⟨fun he => absurd he hne, fun hc => absurd hc h⟩⟩

/-! ### C9 — domain assignment -/

/-- C9 counterexample: on a table path `xyz` containing no domain keyword,
the CSV graph builder assigns domain `Account`, not the default `General` —
its inline rule is `"Finance" if "financial" in phys else "Account"` with no
`General` fallback. -/
theorem no_keyword_domain_is_account :
    (DataDict.process_csv_files [rowNoKeyword]).tables.map
        (fun t => (t.physical_name, t.domain)) =
      [("xyz".toList, "Account".toList)] ∧
    pyContains (pyLower "xyz".toList) "financial".toList = false ∧
    pyContains (pyLower "xyz".toList) "account".toList = false := by
  decide

/-- C9 (amended): `TestSchema.assign_domain` checks the ordered keywords
`financial` then `account` case-insensitively, first match wins, with
default domain `General` when no keyword matches; the CSV graph builder
instead checks only `financial` (case-sensitively, on the raw physical
name) and assigns `Account` — not `General` — whenever it does not match. -/
theorem assign_domain_characterization :
    (∀ name : List Char,
      (pyContains (pyLower name) "financial".toList = true →
        TestSchema.assign_domain name = "Finance".toList) ∧
      (pyContains (pyLower name) "financial".toList = false →
        pyContains (pyLower name) "account".toList = true →
        TestSchema.assign_domain name = "Account".toList) ∧
      (pyContains (pyLower name) "financial".toList = false →
        pyContains (pyLower name) "account".toList = false →
        TestSchema.assign_domain name = "General".toList)) ∧
    (∀ phys : List Char,
      (pyContains phys "financial".toList = true →
        DataDict.domainOf phys = "Finance".toList) ∧
      (pyContains phys "financial".toList = false →
        DataDict.domainOf phys = "Account".toList)) := by
  constructor
  · intro name
    refine ⟨fun h1 => ?_, fun h1 h2 => ?_, fun h1 h2 => ?_⟩
    · unfold TestSchema.assign_domain
      rw [if_pos h1]
    · unfold TestSchema.assign_domain
      rw [if_neg (by rw [h1]; exact Bool.false_ne_true), if_pos h2]
    · unfold TestSchema.assign_domain
      rw [if_neg (by rw [h1]; exact Bool.false_ne_true),
        if_neg (by rw [h2]; exact Bool.false_ne_true)]
  · intro phys
    refine ⟨fun h1 => ?_, fun h1 => ?_⟩
    · unfold DataDict.domainOf
      rw [if_pos h1]
    · unfold DataDict.domainOf
      rw [if_neg (by rw [h1]; exact Bool.false_ne_true)]

/-! ### C1, C4, C7, C10 — the relationship inference engine -/

/-- Membership in the list `discover_relationships` returns, unfolded: an
edge is in the output exactly when it arises from a source table, one of its
columns, a target table with a different canonical id, and a target column
with the same name containing `"id"`. -/
theorem DataDict.mem_discover_iff (tables : List DataDict.TableSchema)
    (r : DataDict.RelationshipSchema) :
    r ∈ DataDict.discover_relationships tables ↔
      ∃ s ∈ tables, ∃ c ∈ s.columns, ∃ t ∈ tables, ∃ tc ∈ t.columns,
        s.canonical_id ≠ t.canonical_id ∧ c.name = tc.name ∧
        pyContains c.name "id".toList = true ∧
        r = { source_table := s.canonical_id
              source_column := c.canonical_id
              target_table := t.canonical_id
              target_column := tc.canonical_id
              relationship_type := "linked_by_id".toList
              description := "Auto-detected link via ".toList ++ c.name } := by
  unfold DataDict.discover_relationships
  simp only [List.mem_flatMap]
  constructor
  · rintro ⟨s, hs, c, hc, t, ht, hr⟩
    by_cases hid : s.canonical_id = t.canonical_id
    · rw [if_pos hid] at hr
      exact absurd hr (List.not_mem_nil r)
    · rw [if_neg hid] at hr
      rcases List.mem_filterMap.mp hr with ⟨tc, htc, heq⟩
      by_cases hcond : c.name = tc.name ∧ pyContains c.name "id".toList = true
      · rw [if_pos hcond] at heq
        injection heq with h
        subst h
        exact ⟨s, hs, c, hc, t, ht, tc, htc, hid, hcond.1, hcond.2, rfl⟩
      · rw [if_neg hcond] at heq
        cases heq
  · rintro ⟨s, hs, c, hc, t, ht, tc, htc, hid, hname, hidin, rfl⟩
    refine ⟨s, hs, c, hc, t, ht, ?_⟩
    rw [if_neg hid]
    exact List.mem_filterMap.mpr ⟨tc, htc, by rw [if_pos ⟨hname, hidin⟩]⟩

/-- C1: every relationship `discover_relationships` returns has
`relationship_type = "linked_by_id"`, links two tables with distinct
canonical ids (no self-edges), and references a source column and a target
column of the input tables whose canonical names are exactly equal and
contain the substring `"id"`. -/
theorem discover_relationships_sound (tables : List DataDict.TableSchema)
    (r : DataDict.RelationshipSchema)
    (hr : r ∈ DataDict.discover_relationships tables) :
    r.relationship_type = "linked_by_id".toList ∧
    r.source_table ≠ r.target_table ∧
    ∃ s ∈ tables, ∃ c ∈ s.columns, ∃ t ∈ tables, ∃ tc ∈ t.columns,
      r.source_table = s.canonical_id ∧ r.source_column = c.canonical_id ∧
      r.target_table = t.canonical_id ∧ r.target_column = tc.canonical_id ∧
      c.name = tc.name ∧ pyContains c.name "id".toList = true ∧
      pyContains tc.name "id".toList = true := by
  rcases (DataDict.mem_discover_iff tables r).mp hr with
    ⟨s, hs, c, hc, t, ht, tc, htc, hid, hname, hidin, rfl⟩
  exact ⟨rfl, hid, s, hs, c, hc, t, ht, tc, htc, rfl, rfl, rfl, rfl, hname,
    hidin, hname ▸ hidin⟩

/-- C1 witness: on the two-table fixture the engine emits `wRelForward`,
and the soundness conclusion holds of it. -/
theorem discover_relationships_sound_witness :
    wRelForward ∈ DataDict.discover_relationships wTables ∧
    (wRelForward.relationship_type = "linked_by_id".toList ∧
     wRelForward.source_table ≠ wRelForward.target_table ∧
     ∃ s ∈ wTables, ∃ c ∈ s.columns, ∃ t ∈ wTables, ∃ tc ∈ t.columns,
       wRelForward.source_table = s.canonical_id ∧
       wRelForward.source_column = c.canonical_id ∧
       wRelForward.target_table = t.canonical_id ∧
       wRelForward.target_column = tc.canonical_id ∧
       c.name = tc.name ∧ pyContains c.name "id".toList = true ∧
       pyContains tc.name "id".toList = true) :=
  ⟨by decide, discover_relationships_sound wTables wRelForward (by decide)⟩

/-- C7: the engine scans ordered pairs and does not de-duplicate: whenever
two tables with distinct canonical ids both own a column of one shared name
containing `"id"`, the output holds an edge in each direction for that
column pair. -/
theorem discover_relationships_double_edges
    (tables : List DataDict.TableSchema) (A B : DataDict.TableSchema)
    (cA cB : DataDict.ColumnSchema)
    (hA : A ∈ tables) (hB : B ∈ tables)
    (hAB : A.canonical_id ≠ B.canonical_id)
    (hcA : cA ∈ A.columns) (hcB : cB ∈ B.columns)
    (hname : cA.name = cB.name)
    (hid : pyContains cA.name "id".toList = true) :
    (∃ r ∈ DataDict.discover_relationships tables,
      r.source_table = A.canonical_id ∧ r.source_column = cA.canonical_id ∧
      r.target_table = B.canonical_id ∧ r.target_column = cB.canonical_id) ∧
    (∃ r ∈ DataDict.discover_relationships tables,
      r.source_table = B.canonical_id ∧ r.source_column = cB.canonical_id ∧
      r.target_table = A.canonical_id ∧ r.target_column = cA.canonical_id) := by
  constructor
  · exact ⟨_, (DataDict.mem_discover_iff tables _).mpr
      ⟨A, hA, cA, hcA, B, hB, cB, hcB, hAB, hname, hid, rfl⟩, rfl, rfl, rfl, rfl⟩
  · exact ⟨_, (DataDict.mem_discover_iff tables _).mpr
      ⟨B, hB, cB, hcB, A, hA, cA, hcA, Ne.symm hAB, hname.symm, hname ▸ hid,
        rfl⟩, rfl, rfl, rfl, rfl⟩

/-- C7 witness: on the two-table fixture, both the
`deposits -> verified_user_details` and the
`verified_user_details -> deposits` edge for `user_id` are emitted. -/
theorem discover_relationships_double_edges_witness :
    (∃ r ∈ DataDict.discover_relationships wTables,
      r.source_table = wDeposits.canonical_id ∧
      r.source_column = wUserIdDeposits.canonical_id ∧
      r.target_table = wVerified.canonical_id ∧
      r.target_column = wUserIdVerified.canonical_id) ∧
    (∃ r ∈ DataDict.discover_relationships wTables,
      r.source_table = wVerified.canonical_id ∧
      r.source_column = wUserIdVerified.canonical_id ∧
      r.target_table = wDeposits.canonical_id ∧
      r.target_column = wUserIdDeposits.canonical_id) :=
  discover_relationships_double_edges wTables wDeposits wVerified
    wUserIdDeposits wUserIdVerified (by decide) (by decide) (by decide)
    (by decide) (by decide) (by decide) (by decide)

/-- The foreign-key marking pass keeps every table's canonical id and every
column's canonical id in place. -/
theorem DataDict.mark_preserves (tables : List DataDict.TableSchema)
    (s : DataDict.TableSchema) (hs : s ∈ tables) (c : DataDict.ColumnSchema)
    (hc : c ∈ s.columns) :
    ∃ t ∈ DataDict.discover_mark tables, t.canonical_id = s.canonical_id ∧
      ∃ d ∈ t.columns, d.canonical_id = c.canonical_id := by
  refine ⟨_, List.mem_map_of_mem _ hs, rfl, _, List.mem_map_of_mem _ hc, ?_⟩
  split <;> rfl

/-- C4 (amended, heuristic mode): every canonical identifier a discovered
relationship references — source table, source column, target table, target
column — exists among the tables of the serialized graph (the table list
after the foreign-key marking pass).  The curated list of TestSchema.py
violates the analogous property; see the counterexample. -/
theorem discovered_relationships_resolve
    (tables : List DataDict.TableSchema) (r : DataDict.RelationshipSchema)
    (hr : r ∈ DataDict.discover_relationships tables) :
    (∃ t ∈ DataDict.discover_mark tables, t.canonical_id = r.source_table ∧
      ∃ c ∈ t.columns, c.canonical_id = r.source_column) ∧
    (∃ t ∈ DataDict.discover_mark tables, t.canonical_id = r.target_table ∧
      ∃ c ∈ t.columns, c.canonical_id = r.target_column) := by
  rcases (DataDict.mem_discover_iff tables r).mp hr with
    ⟨s, hs, c, hc, t, ht, tc, htc, hid, hname, hidin, rfl⟩
  exact ⟨DataDict.mark_preserves tables s hs c hc,
    DataDict.mark_preserves tables t ht tc htc⟩

/-- C4 witness: the references of the fixture edge `wRelForward` resolve in
the marked fixture graph. -/
theorem discovered_relationships_resolve_witness :
    (∃ t ∈ DataDict.discover_mark wTables,
      t.canonical_id = wRelForward.source_table ∧
      ∃ c ∈ t.columns, c.canonical_id = wRelForward.source_column) ∧
    (∃ t ∈ DataDict.discover_mark wTables,
      t.canonical_id = wRelForward.target_table ∧
      ∃ c ∈ t.columns, c.canonical_id = wRelForward.target_column) :=
  discovered_relationships_resolve wTables wRelForward (by decide)

/-- C4 counterexample: in the curated graph of TestSchema.py three of the
six relationships reference a source column that no table of the graph
owns: `account_id` on `foundation_financial_deposits`,
`foundation_financial_withdrawals` and
`foundation_financial_worldpay_transactions` (those tables have no
`account_id` column).  The table names themselves, and all target
references, do resolve. -/
theorem curated_relationship_dangling_column :
    (TestSchema.metadata_model.relationships.map (fun r =>
      TestSchema.endpointResolves TestSchema.metadata_model
        r.source_table r.source_column)) =
      [false, false, true, true, true, false] ∧
    (TestSchema.metadata_model.relationships.map (fun r =>
      TestSchema.endpointResolves TestSchema.metadata_model
        r.target_table r.target_column)) =
      [true, true, true, true, true, true] ∧
    (TestSchema.metadata_model.relationships.map (fun r =>
      TestSchema.metadata_model.tables.any
        (fun t => t.table_name == r.source_table))) =
      [true, true, true, true, true, true] := by
  decide

/-- C10: `discover_relationships` mutates only `is_foreign_key` flags, and
only from `false` to `true`.  Framed over the pure rendering
`discover_mark` of the in-place pass: (1) erasing the `is_foreign_key`
flags, the marked tables equal the input — so every other column field,
every table field, and both orders are unchanged; (2) position by position,
a marked column keeps its other five fields, a set flag stays set, and a
flag is set only when it was set before or the column matches a
same-named `"id"` column of a table with a different canonical id; (3) on
an empty input nothing is returned and nothing changes; (4) likewise on a
single-table input. -/
theorem discover_relationships_frame :
    (∀ tables : List DataDict.TableSchema,
      ((DataDict.discover_mark tables).map DataDict.tableFields =
        tables.map DataDict.tableFields ∧
       (DataDict.discover_mark tables).map
          (fun t => t.columns.map DataDict.columnFields) =
        tables.map (fun t => t.columns.map DataDict.columnFields)) ∧
      List.Forall₂ (fun s s' =>
        DataDict.tableFields s' = DataDict.tableFields s ∧
        List.Forall₂ (fun c c' =>
          DataDict.columnFields c' = DataDict.columnFields c ∧
          (c.is_foreign_key = true → c'.is_foreign_key = true) ∧
          (c'.is_foreign_key = true → c.is_foreign_key = true ∨
            (pyContains c.name "id".toList = true ∧
             ∃ t ∈ tables, t.canonical_id ≠ s.canonical_id ∧
               ∃ tc ∈ t.columns, tc.name = c.name)))
          s.columns s'.columns)
        tables (DataDict.discover_mark tables)) ∧
    (DataDict.discover_relationships [] = [] ∧ DataDict.discover_mark [] = []) ∧
    (∀ t : DataDict.TableSchema,
      DataDict.discover_relationships [t] = [] ∧
      DataDict.discover_mark [t] = [t]) := by
  refine ⟨fun tables => ⟨⟨?_, ?_⟩, ?_⟩, ⟨rfl, rfl⟩, fun t => ⟨?_, ?_⟩⟩
  · unfold DataDict.discover_mark
    rw [List.map_map]
    exact List.map_congr_left (fun s _ => rfl)
  · unfold DataDict.discover_mark
    rw [List.map_map]
    apply List.map_congr_left
    intro s _
    show (s.columns.map _).map DataDict.columnFields = _
    rw [List.map_map]
    apply List.map_congr_left
    intro c _
    simp only [Function.comp_apply]
    split <;> rfl
  · unfold DataDict.discover_mark
    rw [List.forall₂_map_right_iff, List.forall₂_same]
    intro s _
    refine ⟨rfl, ?_⟩
    show List.Forall₂ _ s.columns (s.columns.map _)
    rw [List.forall₂_map_right_iff, List.forall₂_same]
    intro c _
    by_cases hm : DataDict.fkMatch tables s c = true
    · rw [if_pos hm]
      refine ⟨rfl, fun _ => rfl, fun _ => Or.inr ?_⟩
      unfold DataDict.fkMatch at hm
      rcases (Bool.and_eq_true _ _).mp hm with ⟨hany, hid⟩
      rcases List.any_eq_true.mp hany with ⟨t, ht, hcond⟩
      rcases (Bool.and_eq_true _ _).mp hcond with ⟨hneq, hcols⟩
      rcases List.any_eq_true.mp hcols with ⟨tc, htc, hbeq⟩
      refine ⟨hid, t, ht, ?_, tc, htc, (beq_iff_eq.mp hbeq).symm⟩
      intro he
      rw [he] at hneq
      simp at hneq
    · rw [if_neg hm]
      exact ⟨rfl, fun h => h, fun h => Or.inl h⟩
  · unfold DataDict.discover_relationships
    simp
  · unfold DataDict.discover_mark DataDict.fkMatch
    simp

/-! ### C5 — idempotence of the data-dictionary normalizer -/

/-- Every character of `afterLastDot l` is a non-dot character of `l`. -/
theorem mem_afterLastDot {c : Char} {l : List Char} (h : c ∈ afterLastDot l) :
    c ∈ l ∧ c ≠ '.' := by
  unfold afterLastDot at h
  rw [List.mem_reverse] at h
  refine ⟨List.mem_reverse.mp (List.Sublist.mem h (List.takeWhile_sublist _)), ?_⟩
  have hp := List.mem_takeWhile_imp h
  exact bne_iff_ne.mp hp

/-- The two branches of `prepName`, with the branch condition. -/
theorem prepName_eq (s : List Char) :
    ('.' ∈ (pyLower s).filter (fun c => c != '"') ∧
      DataDict.prepName s =
        afterLastDot ((pyLower s).filter (fun c => c != '"'))) ∨
    ('.' ∉ (pyLower s).filter (fun c => c != '"') ∧
      DataDict.prepName s = (pyLower s).filter (fun c => c != '"')) := by
  by_cases hdot : '.' ∈ (pyLower s).filter (fun c => c != '"')
  · refine Or.inl ⟨hdot, ?_⟩
    show (if '.' ∈ (pyLower s).filter (fun c => c != '"') then
            afterLastDot ((pyLower s).filter (fun c => c != '"'))
          else (pyLower s).filter (fun c => c != '"')) = _
    rw [if_pos hdot]
  · refine Or.inr ⟨hdot, ?_⟩
    show (if '.' ∈ (pyLower s).filter (fun c => c != '"') then
            afterLastDot ((pyLower s).filter (fun c => c != '"'))
          else (pyLower s).filter (fun c => c != '"')) = _
    rw [if_neg hdot]

/-- Every character of `prepName s` survives the quote filter on the
lower-cased input. -/
theorem mem_prepName_sub {c : Char} {s : List Char}
    (h : c ∈ DataDict.prepName s) :
    c ∈ (pyLower s).filter (fun x => x != '"') := by
  rcases prepName_eq s with ⟨_, heq⟩ | ⟨_, heq⟩
  · rw [heq] at h
    exact (mem_afterLastDot h).1
  · rw [heq] at h
    exact h

/-- `prepName` never returns a dot: either the split-at-last-dot branch ran,
or no dot was present in the first place. -/
theorem no_dot_prepName (s : List Char) : '.' ∉ DataDict.prepName s := by
  rcases prepName_eq s with ⟨_, heq⟩ | ⟨hdot, heq⟩
  · rw [heq]
    intro h
    exact (mem_afterLastDot h).2 rfl
  · rw [heq]
    exact hdot

/-- `prepName` output is already lower-case. -/
theorem mem_prepName_lower_fix {c : Char} {s : List Char}
    (h : c ∈ DataDict.prepName s) : c.toLower = c := by
  have hmem : c ∈ pyLower s := (List.mem_filter.mp (mem_prepName_sub h)).1
  rcases List.mem_map.mp hmem with ⟨a, _, rfl⟩
  exact char_toLower_idem a

/-- `prepName` output holds no quote character. -/
theorem no_quote_prepName (s : List Char) : '"' ∉ DataDict.prepName s := by
  intro h
  have h2 := (List.mem_filter.mp (mem_prepName_sub h)).2
  simp at h2

/-- `prepName` is idempotent. -/
theorem prepName_fix (s : List Char) :
    DataDict.prepName (DataDict.prepName s) = DataDict.prepName s := by
  have h1 : pyLower (DataDict.prepName s) = DataDict.prepName s :=
    map_eq_self_of_mem (fun a ha => mem_prepName_lower_fix ha)
  have h2 : (DataDict.prepName s).filter (fun c => c != '"') =
      DataDict.prepName s :=
    List.filter_eq_self.mpr (fun a ha =>
      bne_iff_ne.mpr (fun he => no_quote_prepName s (he ▸ ha)))
  show (if '.' ∈ (pyLower (DataDict.prepName s)).filter (fun c => c != '"') then
          afterLastDot
            ((pyLower (DataDict.prepName s)).filter (fun c => c != '"'))
        else (pyLower (DataDict.prepName s)).filter (fun c => c != '"')) =
      DataDict.prepName s
  rw [h1, h2, if_neg (no_dot_prepName s)]

/-- Replacing dots does nothing to a dot-free string. -/
theorem dotsToUnderscores_fix {l : List Char} (h : '.' ∉ l) :
    dotsToUnderscores l = l := by
  apply map_eq_self_of_mem
  intro a ha
  have hne : a ≠ '.' := fun he => h (he ▸ ha)
  exact if_neg hne

/-- The no-target branch of `normalize_table_name`. -/
theorem DataDict.normalize_eq_none (x : List Char)
    (h : DataDict.TARGET_TABLES.find?
        (fun target => pyContains (DataDict.prepName x) target) = none) :
    DataDict.normalize_table_name x = dotsToUnderscores (DataDict.prepName x) := by
  unfold DataDict.normalize_table_name
  rw [h]

/-- The matched-target branch of `normalize_table_name`. -/
theorem DataDict.normalize_eq_some (x t : List Char)
    (h : DataDict.TARGET_TABLES.find?
        (fun target => pyContains (DataDict.prepName x) target) = some t) :
    DataDict.normalize_table_name x = DataDict.cleanTarget t := by
  unfold DataDict.normalize_table_name
  rw [h]

/-- C5 (amended): `normalize_table_name` of data_dictionaries_schema.py is
idempotent on every input string.  (The TestSchema.py variant is not; see
the counterexample at `"a.v1"`.) -/
theorem datadict_normalize_table_name_idempotent (s : List Char) :
    DataDict.normalize_table_name (DataDict.normalize_table_name s) =
      DataDict.normalize_table_name s := by
  rcases hfind : DataDict.TARGET_TABLES.find?
      (fun target => pyContains (DataDict.prepName s) target) with _ | t
  · have hres := DataDict.normalize_eq_none s hfind
    have hdu := dotsToUnderscores_fix (no_dot_prepName s)
    rw [hres, hdu]
    have hfind2 : DataDict.TARGET_TABLES.find?
        (fun target =>
          pyContains (DataDict.prepName (DataDict.prepName s)) target) = none := by
      rw [prepName_fix]
      exact hfind
    rw [DataDict.normalize_eq_none _ hfind2, prepName_fix]
    exact hdu
  · rw [DataDict.normalize_eq_some s t hfind]
    have ht : t ∈ DataDict.TARGET_TABLES := List.mem_of_find?_eq_some hfind
    simp only [DataDict.TARGET_TABLES, List.mem_cons, List.not_mem_nil,
      or_false] at ht
    rcases ht with rfl | rfl | rfl | rfl | rfl | rfl | rfl | rfl <;> decide
